import Mathlib

/-!
Verification development for the agentic batch processing system.

The Python source is shallowly embedded: each Lean definition translates one
function (or one tightly-coupled code path) of the repository.  Timestamps are
modelled as natural numbers (ISO serialisation round-trips exactly), SQL REAL
values as rationals, JSON dictionaries as association lists from strings to
strings, and conversation events as opaque strings.  OS interactions (process
liveness checks, kill outcomes, database errors) enter as explicit oracle
parameters.
-/

namespace ABP

/-- Status of a work unit (core/models.py, WorkUnitStatus). -/
inductive WUStatus where
  | pending
  | assigned
  | processing
  | completed
  | failed
deriving DecidableEq, Repr

/-- Status of a job (core/models.py, JobStatus). -/
inductive JStatus where
  | created
  | testing
  | ready
  | running
  | paused
  | post_processing
  | completed
  | failed
deriving DecidableEq, Repr

/-- Status of a worker process (core/models.py, WorkerStatus). -/
inductive WStatus where
  | idle
  | busy
  | failed
  | terminated
deriving DecidableEq, Repr

/-- A work unit (core/models.py, WorkUnit).  Field for field the dataclass;
datetimes are Nat, floats are Rat, JSON dicts are association lists and
conversation events are opaque strings. -/
structure WorkUnit where
  unit_id : String
  job_id : String
  unit_type : String
  status : WUStatus
  payload : List (String × String)
  created_at : Nat
  assigned_at : Option Nat := none
  started_at : Option Nat := none
  completed_at : Option Nat := none
  worker_id : Option String := none
  result : Option (List (String × String)) := none
  error : Option String := none
  retry_count : Nat := 0
  max_retries : Nat := 3
  execution_time_seconds : Option Rat := none
  output_files : List String := []
  rendered_prompt : Option String := none
  conversation : Option (List String) := none
  session_id : Option String := none
  cost_usd : Option Rat := none
  process_id : Option Nat := none
deriving DecidableEq, Repr

/-- A job (core/models.py, Job).  The open metadata bag is an association
list from string keys to string-encoded JSON values. -/
structure Job where
  job_id : String
  name : String
  description : String
  status : JStatus
  worker_prompt_template : String
  unit_type : String
  total_units : Nat
  created_at : Nat
  completed_units : Nat := 0
  failed_units : Nat := 0
  max_workers : Nat := 4
  started_at : Option Nat := none
  completed_at : Option Nat := none
  test_unit_id : Option String := none
  test_passed : Bool := false
  output_strategy : String := "individual"
  metadata : List (String × String) := []
  post_processing_prompt : Option String := none
  post_processing_unit_id : Option String := none
  bypass_failures : Bool := false
deriving DecidableEq, Repr

/-- A worker process record (core/models.py, WorkerProcess). -/
structure WorkerProcess where
  worker_id : String
  status : WStatus
  job_id : Option String
  current_unit_id : Option String
  process_id : Option Nat := none
  started_at : Nat := 0
  last_heartbeat : Option Nat := none
  units_completed : Nat := 0
  units_failed : Nat := 0
  total_execution_time : Rat := 0
deriving DecidableEq, Repr

/-- WorkUnit.can_retry (core/models.py line 88): retry_count < max_retries. -/
def canRetry (u : WorkUnit) : Bool :=
  u.retry_count < u.max_retries

/-- The is_post_processing test of job_executor.py line 282: Python's
`unit.unit_id == job.post_processing_unit_id` compares a string with an
optional string, false when the latter is None. -/
def isPostProcessing (j : Job) (u : WorkUnit) : Bool :=
  j.post_processing_unit_id = some u.unit_id

/-- JobExecutor._on_unit_failed (core/job_executor.py lines 278-305).
Returns the persisted unit and the persisted job.  The retry branch tests
only `unit.can_retry()`; the permanent branch increments failed_units when
the job exists and the unit is not the post-processing unit. -/
def onUnitFailed (job : Option Job) (unit : WorkUnit) : WorkUnit × Option Job :=
  if canRetry unit then
    ({ unit with
        status := WUStatus.pending
        retry_count := unit.retry_count + 1
        worker_id := none
        assigned_at := none
        started_at := none }, job)
  else
    match job with
    | none => (unit, none)
    | some j =>
      if isPostProcessing j unit then (unit, some j)
      else (unit, some { j with failed_units := j.failed_units + 1 })

/-- JobExecutor._on_unit_complete (core/job_executor.py lines 260-277):
increments completed_units unless the unit is the post-processing unit. -/
def onUnitComplete (job : Option Job) (unit : WorkUnit) : Option Job :=
  match job with
  | none => none
  | some j =>
    if isPostProcessing j unit then some j
    else some { j with completed_units := j.completed_units + 1 }

/-- Python truthiness of the optional post_processing_prompt string: None and
the empty string are falsy (`not job.post_processing_prompt`). -/
def promptTruthy : Option String → Bool
  | none => false
  | some s => s ≠ ""

/-- JobExecutor._determine_final_status (core/job_executor.py lines 222-258). -/
def determineFinalStatus (job : Job) (post_unit : Option WorkUnit) : JStatus :=
  let all_units_done : Bool := job.completed_units + job.failed_units = job.total_units
  let all_succeeded : Bool := job.completed_units = job.total_units
  let post_processing_failed : Bool :=
    match post_unit with
    | some u => u.status = WUStatus.failed
    | none => false
  let post_processing_succeeded : Bool :=
    match post_unit with
    | some u => u.status = WUStatus.completed
    | none => false
  if post_processing_failed then JStatus.failed
  else if all_succeeded && (!promptTruthy job.post_processing_prompt || post_processing_succeeded) then
    JStatus.completed
  else if job.bypass_failures && post_processing_succeeded then JStatus.completed
  else if decide (0 < job.failed_units) && all_units_done then JStatus.failed
  else JStatus.paused

/-- Final-status rule table of spec section 4.6, written from the spec's
words: a pure function of the six inputs the claim names, in the claimed
priority order. -/
def specFinalStatusTable (all_units_done all_succeeded bypass_failures has_post_prompt
    any_failed : Bool) (post_status : Option WUStatus) : JStatus :=
  if post_status = some WUStatus.failed then JStatus.failed
  else if all_succeeded && (!has_post_prompt || post_status = some WUStatus.completed) then
    JStatus.completed
  else if bypass_failures && post_status = some WUStatus.completed then JStatus.completed
  else if any_failed && all_units_done then JStatus.failed
  else JStatus.paused

/-- The `.value` string of a work-unit status (core/models.py lines 17-24). -/
def wuStatusValue : WUStatus → String
  | WUStatus.pending => "pending"
  | WUStatus.assigned => "assigned"
  | WUStatus.processing => "processing"
  | WUStatus.completed => "completed"
  | WUStatus.failed => "failed"

/-- JobExecutor.restart_work_unit (core/job_executor.py lines 546-605),
acting on the unit and job as fetched from the repository (`none` when the
row is missing).  The best-effort kill of a stale PID touches no persisted
state and is omitted.  On success the returned pair is what is persisted;
on error nothing is written.  `failed_units - 1` is natural subtraction,
which is exactly the code's `max(0, failed_units - 1)`. -/
def restartWorkUnit (job_id : String) (unit : Option WorkUnit) (job : Option Job) :
    Except String (WorkUnit × Option Job) :=
  match unit with
  | none => Except.error "Work unit not found"
  | some u =>
    if u.job_id ≠ job_id then Except.error "Work unit does not belong to this job"
    else if u.status ≠ WUStatus.failed then
      Except.error ("Cannot restart unit with status \x27" ++ wuStatusValue u.status ++
        "\x27. Only failed units can be restarted.")
    else
      let job' : Option Job :=
        match job with
        | some j => some { j with failed_units := j.failed_units - 1 }
        | none => none
      Except.ok
        ({ u with
            status := WUStatus.pending
            error := none
            result := none
            worker_id := none
            assigned_at := none
            started_at := none
            completed_at := none
            execution_time_seconds := none
            process_id := none
            conversation := none
            rendered_prompt := none
            session_id := none
            cost_usd := none }, job')

/-- A JSON value stored in a WorkerResult metadata dictionary: the driver
puts strings, numbers or nulls there (workers/claude_cli_worker.py lines
237-244). -/
inductive MetaVal where
  | mstr (v : String)
  | mnum (v : Rat)
  | mnull
deriving DecidableEq, Repr

/-- Dictionary `get`: `metadata.get(k)` on the association list. -/
def metaGet (m : List (String × MetaVal)) (k : String) : Option MetaVal :=
  (m.find? (fun e => e.1 = k)).map (fun e => e.2)

/-- Reading a string-valued metadata entry (`metadata.get("session_id")`):
the driver stores a string or null under that key. -/
def metaGetStr (m : List (String × MetaVal)) (k : String) : Option String :=
  match metaGet m k with
  | some (MetaVal.mstr v) => some v
  | _ => none

/-- Reading a number-valued metadata entry (`metadata.get("total_cost_usd")`). -/
def metaGetNum (m : List (String × MetaVal)) (k : String) : Option Rat :=
  match metaGet m k with
  | some (MetaVal.mnum v) => some v
  | _ => none

/-- WorkerResult (workers/base.py lines 11-55) after `__post_init__`, which
replaces a missing output_files, metadata or conversation by the empty
collection. -/
structure WorkerResult where
  success : Bool
  output : Option String := none
  error : Option String := none
  execution_time : Option Rat := none
  output_files : List String := []
  metadata : List (String × MetaVal) := []
  conversation : List String := []
  rendered_prompt : Option String := none
deriving DecidableEq, Repr

/-- WorkerResult.to_dict (workers/base.py lines 44-55), as the stored
string-to-string dictionary; optional fields print as "None". -/
def resultToDict (r : WorkerResult) : List (String × String) :=
  [("success", if r.success then "True" else "False"),
   ("output", r.output.getD "None"),
   ("error", r.error.getD "None"),
   ("execution_time", match r.execution_time with | none => "None" | some q => reprStr q),
   ("output_files", String.intercalate "," r.output_files),
   ("metadata", reprStr r.metadata),
   ("conversation", String.intercalate "," r.conversation),
   ("rendered_prompt", r.rendered_prompt.getD "None")]

/-- The failure branch of WorkerPool._execute_work_unit (core/worker_pool.py
lines 198-248) for a driver result with success=False, combined with the
executor's _on_unit_failed callback: lines 198-207 record the attempt on the
unit, lines 231-233 mark it failed, the callback possibly resets it, and the
final `update_work_unit` at line 248 persists the resulting object.  Returns
that final persisted unit together with the persisted job. -/
def executeWorkUnitFailed (job : Option Job) (unit : WorkUnit) (r : WorkerResult)
    (now : Nat) : WorkUnit × Option Job :=
  let u1 : WorkUnit :=
    { unit with
        completed_at := some now
        execution_time_seconds := r.execution_time
        output_files := r.output_files
        process_id := none
        rendered_prompt := r.rendered_prompt
        conversation := some r.conversation
        session_id := if r.metadata ≠ [] then metaGetStr r.metadata "session_id"
          else unit.session_id
        cost_usd := if r.metadata ≠ [] then metaGetNum r.metadata "total_cost_usd"
          else unit.cost_usd }
  let u2 : WorkUnit :=
    { u1 with
        status := WUStatus.failed
        error := r.error
        result := some (resultToDict r) }
  onUnitFailed job u2

section ClaimC1

/-- A post-processing unit with remaining retry budget whose driver failed. -/
def c1Unit : WorkUnit :=
  { unit_id := "post-1", job_id := "job-1", unit_type := "post_processing",
    status := WUStatus.failed, payload := [], created_at := 0,
    retry_count := 0, max_retries := 3 }

/-- The owning job, pointing at c1Unit as its post-processing unit. -/
def c1Job : Job :=
  { job_id := "job-1", name := "n", description := "d",
    status := JStatus.post_processing, worker_prompt_template := "t",
    unit_type := "file", total_units := 1, created_at := 0,
    post_processing_prompt := some "SUMMARIZE",
    post_processing_unit_id := some "post-1" }

/-- Claim C1, counterexample: the claim says the post-processing unit is
never reset to pending by the on-unit-failed callback, but the code's retry
branch tests only `can_retry()`, so a failing post-processing unit with
retry budget left is reset to pending. -/
theorem C1_counterexample :
    isPostProcessing c1Job c1Unit = true ∧ canRetry c1Unit = true ∧
    ((onUnitFailed (some c1Job) c1Unit).1).status = WUStatus.pending := by
  decide

/-- Claim C1 (amended): on driver failure, if the unit can retry it is reset
to pending with retry_count incremented and worker_id/assigned_at/started_at
cleared, regardless of whether it is the post-processing unit; otherwise the
unit is unchanged and failed_units is incremented exactly when the unit is
not the post-processing unit. -/
theorem C1_on_unit_failed (j : Job) (u : WorkUnit) :
    (canRetry u = true →
      onUnitFailed (some j) u =
        ({ u with
            status := WUStatus.pending
            retry_count := u.retry_count + 1
            worker_id := none
            assigned_at := none
            started_at := none }, some j)) ∧
    (canRetry u = false → isPostProcessing j u = true →
      onUnitFailed (some j) u = (u, some j)) ∧
    (canRetry u = false → isPostProcessing j u = false →
      onUnitFailed (some j) u =
        (u, some { j with failed_units := j.failed_units + 1 })) := by
  refine ⟨fun h => ?_, fun h hp => ?_, fun h hp => ?_⟩
  · simp [onUnitFailed, h]
  · simp [onUnitFailed, h, hp]
  · simp [onUnitFailed, h, hp]

/-- Witness for C1_on_unit_failed at a concrete input. -/
theorem C1_on_unit_failed_witness :
    canRetry c1Unit = true ∧
    onUnitFailed (some c1Job) c1Unit =
      ({ c1Unit with
          status := WUStatus.pending
          retry_count := c1Unit.retry_count + 1
          worker_id := none
          assigned_at := none
          started_at := none }, some c1Job) :=
  ⟨by decide, (C1_on_unit_failed c1Job c1Unit).1 (by decide)⟩

end ClaimC1

section ClaimC3

/-- Claim C3: the final status decided after drain and optional
post-processing is the spec's section 4.6 rule table, a pure function of
all_units_done, all_succeeded, bypass_failures, presence of a (non-empty)
post_processing_prompt, failed_units > 0, and the post-processing unit's
status, in the claimed priority order. -/
theorem C3_final_status_pure (job : Job) (post_unit : Option WorkUnit) :
    determineFinalStatus job post_unit =
      specFinalStatusTable
        (decide (job.completed_units + job.failed_units = job.total_units))
        (decide (job.completed_units = job.total_units))
        job.bypass_failures
        (promptTruthy job.post_processing_prompt)
        (decide (0 < job.failed_units))
        (post_unit.map WorkUnit.status) := by
  cases post_unit with
  | none => simp [determineFinalStatus, specFinalStatusTable]
  | some u =>
    cases hu : u.status <;>
      simp [determineFinalStatus, specFinalStatusTable, hu]

end ClaimC3

section ClaimC5

/-- Claim C5: restart on a failed unit resets it to pending with every
per-attempt field null and retry_count untouched (the record update below
leaves retry_count at its old value), and floors the owning job's
failed_units decrement at 0 (natural subtraction); restart on a unit in any
other status returns an error, and the code performs no write in that
case. -/
theorem C5_restart_work_unit (j : Job) (u : WorkUnit) (hjob : u.job_id = j.job_id) :
    (u.status = WUStatus.failed →
      restartWorkUnit j.job_id (some u) (some j) =
        Except.ok
          ({ u with
              status := WUStatus.pending
              error := none
              result := none
              worker_id := none
              assigned_at := none
              started_at := none
              completed_at := none
              execution_time_seconds := none
              process_id := none
              conversation := none
              rendered_prompt := none
              session_id := none
              cost_usd := none },
            some { j with failed_units := j.failed_units - 1 })) ∧
    (u.status ≠ WUStatus.failed →
      restartWorkUnit j.job_id (some u) (some j) =
        Except.error ("Cannot restart unit with status \x27" ++ wuStatusValue u.status ++
          "\x27. Only failed units can be restarted.")) := by
  constructor
  · intro h
    simp [restartWorkUnit, hjob, h]
  · intro h
    simp [restartWorkUnit, hjob, h]

/-- A failed unit with every per-attempt field populated. -/
def c5Unit : WorkUnit :=
  { unit_id := "u-5", job_id := "job-5", unit_type := "file",
    status := WUStatus.failed, payload := [("k", "v")], created_at := 3,
    assigned_at := some 4, started_at := some 5, completed_at := some 9,
    worker_id := some "w", result := some [("output", "x")], error := some "boom",
    retry_count := 2, max_retries := 3, execution_time_seconds := some 5,
    conversation := some ["e1"], rendered_prompt := some "p",
    session_id := some "s", cost_usd := some 1, process_id := some 77 }

/-- The job owning c5Unit, with two recorded failures. -/
def c5Job : Job :=
  { job_id := "job-5", name := "n", description := "d", status := JStatus.paused,
    worker_prompt_template := "t", unit_type := "file", total_units := 4,
    created_at := 0, completed_units := 1, failed_units := 2 }

/-- Witness for C5_restart_work_unit at a concrete failed unit. -/
theorem C5_restart_work_unit_witness :
    c5Unit.job_id = c5Job.job_id ∧ c5Unit.status = WUStatus.failed ∧
    restartWorkUnit c5Job.job_id (some c5Unit) (some c5Job) =
      Except.ok
        ({ c5Unit with
            status := WUStatus.pending
            error := none
            result := none
            worker_id := none
            assigned_at := none
            started_at := none
            completed_at := none
            execution_time_seconds := none
            process_id := none
            conversation := none
            rendered_prompt := none
            session_id := none
            cost_usd := none },
          some { c5Job with failed_units := c5Job.failed_units - 1 }) :=
  ⟨rfl, rfl, (C5_restart_work_unit c5Job c5Unit rfl).1 rfl⟩

end ClaimC5

section ClaimC6

/-- A unit mid-processing on its first attempt. -/
def c6Unit : WorkUnit :=
  { unit_id := "u-6", job_id := "job-6", unit_type := "file",
    status := WUStatus.processing, payload := [], created_at := 0,
    worker_id := some "w6", assigned_at := some 1, started_at := some 2,
    retry_count := 0, max_retries := 3 }

/-- A failed driver result carrying an error, a conversation and timing. -/
def c6Result : WorkerResult :=
  { success := false, error := some "boom", execution_time := some 7,
    conversation := ["ev"], rendered_prompt := some "rp" }

/-- The job owning c6Unit. -/
def c6Job : Job :=
  { job_id := "job-6", name := "n", description := "d", status := JStatus.running,
    worker_prompt_template := "t", unit_type := "file", total_units := 1,
    created_at := 0 }

/-- Claim C6, counterexample: after a retriable failure the code clears only
worker_id, assigned_at and started_at; error, result, completed_at,
conversation and execution_time_seconds all keep the failed attempt's
values, contradicting the claim that they are cleared. -/
theorem C6_counterexample :
    canRetry c6Unit = true ∧
    ((executeWorkUnitFailed (some c6Job) c6Unit c6Result 5).1).status = WUStatus.pending ∧
    ((executeWorkUnitFailed (some c6Job) c6Unit c6Result 5).1).worker_id = none ∧
    ((executeWorkUnitFailed (some c6Job) c6Unit c6Result 5).1).error = some "boom" ∧
    ((executeWorkUnitFailed (some c6Job) c6Unit c6Result 5).1).completed_at = some 5 ∧
    ((executeWorkUnitFailed (some c6Job) c6Unit c6Result 5).1).conversation = some ["ev"] ∧
    ((executeWorkUnitFailed (some c6Job) c6Unit c6Result 5).1).execution_time_seconds =
      some 7 ∧
    ((executeWorkUnitFailed (some c6Job) c6Unit c6Result 5).1).result ≠ none := by
  decide

/-- Claim C6 (amended): on a retriable driver failure the unit returns to
pending with retry_count incremented and only worker_id, assigned_at and
started_at cleared; error, result, completed_at, conversation,
execution_time_seconds, rendered_prompt, session_id and cost_usd keep the
values recorded for the failed attempt. -/
theorem C6_retriable_failure (job : Option Job) (u : WorkUnit) (r : WorkerResult)
    (now : Nat) (h : canRetry u = true) :
    executeWorkUnitFailed job u r now =
      ({ u with
          status := WUStatus.pending
          retry_count := u.retry_count + 1
          worker_id := none
          assigned_at := none
          started_at := none
          completed_at := some now
          execution_time_seconds := r.execution_time
          output_files := r.output_files
          process_id := none
          rendered_prompt := r.rendered_prompt
          conversation := some r.conversation
          session_id := if r.metadata ≠ [] then metaGetStr r.metadata "session_id"
            else u.session_id
          cost_usd := if r.metadata ≠ [] then metaGetNum r.metadata "total_cost_usd"
            else u.cost_usd
          error := r.error
          result := some (resultToDict r) }, job) := by
  simp only [executeWorkUnitFailed, onUnitFailed, canRetry] at h ⊢
  simp [h]

/-- Witness for C6_retriable_failure at a concrete input. -/
theorem C6_retriable_failure_witness :
    canRetry c6Unit = true ∧
    executeWorkUnitFailed (some c6Job) c6Unit c6Result 5 =
      ({ c6Unit with
          status := WUStatus.pending
          retry_count := c6Unit.retry_count + 1
          worker_id := none
          assigned_at := none
          started_at := none
          completed_at := some 5
          execution_time_seconds := c6Result.execution_time
          output_files := c6Result.output_files
          process_id := none
          rendered_prompt := c6Result.rendered_prompt
          conversation := some c6Result.conversation
          session_id := if c6Result.metadata ≠ [] then
              metaGetStr c6Result.metadata "session_id"
            else c6Unit.session_id
          cost_usd := if c6Result.metadata ≠ [] then
              metaGetNum c6Result.metadata "total_cost_usd"
            else c6Unit.cost_usd
          error := c6Result.error
          result := some (resultToDict c6Result) }, some c6Job) :=
  ⟨by decide, C6_retriable_failure (some c6Job) c6Unit c6Result 5 (by decide)⟩

end ClaimC6

/-- Dictionary lookup in a job's metadata bag (`job.metadata.get(k)`). -/
def metaLookup (m : List (String × String)) (k : String) : Option String :=
  (m.find? (fun e => e.1 = k)).map (fun e => e.2)

/-- Dictionary assignment `m[k] = v`: replace the binding if the key is
present, else append it. -/
def metaSet (m : List (String × String)) (k v : String) : List (String × String) :=
  match m with
  | [] => [(k, v)]
  | e :: rest => if e.1 = k then (k, v) :: rest else e :: metaSet rest k v

theorem metaLookup_metaSet_self (m : List (String × String)) (k v : String) :
    metaLookup (metaSet m k v) k = some v := by
  induction m with
  | nil => simp [metaSet, metaLookup]
  | cons e rest ih =>
    by_cases he : e.1 = k
    · simp [metaSet, metaLookup, he]
    · simpa [metaSet, metaLookup, he] using ih

theorem metaLookup_metaSet_other (m : List (String × String)) (k k' v : String)
    (h : k' ≠ k) : metaLookup (metaSet m k v) k' = metaLookup m k' := by
  induction m with
  | nil => simp [metaSet, metaLookup, Ne.symm h]
  | cons e rest ih =>
    by_cases he : e.1 = k
    · have he' : ¬e.1 = k' := by rw [he]; exact Ne.symm h
      simp [metaSet, metaLookup, he, he', Ne.symm h]
    · by_cases he' : e.1 = k'
      · simp [metaSet, metaLookup, he, he', h]
      · simpa [metaSet, metaLookup, he, he'] using ih

/-- Python truthiness of the executor_pid metadata entry (`if not pid`): the
pid is an integer stored in the JSON bag, falsy when missing or zero. -/
def pidTruthy : Option String → Bool
  | none => false
  | some s => s ≠ "0"

/-- Repository.reset_stuck_units (persistence/repository.py lines 545-567):
every unit of the job in status assigned or processing goes back to pending
with worker_id, assigned_at and started_at cleared. -/
def resetStuckUnitsList (job_id : String) (units : List WorkUnit) : List WorkUnit :=
  units.map fun u =>
    if u.job_id = job_id ∧ (u.status = WUStatus.assigned ∨ u.status = WUStatus.processing)
    then { u with
            status := WUStatus.pending
            worker_id := none
            assigned_at := none
            started_at := none }
    else u

/-- The job update performed by kill_executor on both success paths:
status failed, killed_at and kill_reason written into the metadata bag. -/
def markJobKilled (j : Job) (now : String) (reason : String) : Job :=
  { j with
      status := JStatus.failed
      metadata := metaSet (metaSet j.metadata "killed_at" now) "kill_reason" reason }

/-- Outcome of the liveness probe `os.kill(pid, 0)`. -/
inductive ProcCheck where
  | alive
  | gone
  | denied
deriving DecidableEq, Repr

/-- Outcome of the `os.killpg` / fallback `os.kill` SIGKILL sequence. -/
inductive KillOutcome where
  | ok
  | lookupFailed
  | permFailed
deriving DecidableEq, Repr

/-- JobExecutor.kill_executor (core/job_executor.py lines 441-493).  The
repository reads and the two OS probes enter as parameters; the result is
the returned success flag, the persisted job update (`none` when nothing is
written) and the unit table after the call.  Note the already-dead branch
(lines 465-470) returns success without invoking reset_stuck_units. -/
def killExecutor (job : Option Job) (check : ProcCheck) (kill : KillOutcome)
    (units : List WorkUnit) (now : String) : Bool × Option Job × List WorkUnit :=
  match job with
  | none => (false, none, units)
  | some j =>
    if pidTruthy (metaLookup j.metadata "executor_pid") = false then (false, none, units)
    else
      match check with
      | ProcCheck.gone =>
        (true, some (markJobKilled j now "User requested kill (process already dead)"),
          units)
      | ProcCheck.denied => (false, none, units)
      | ProcCheck.alive =>
        match kill with
        | KillOutcome.ok =>
          (true, some (markJobKilled j now "User requested kill"),
            resetStuckUnitsList j.job_id units)
        | KillOutcome.lookupFailed => (false, none, units)
        | KillOutcome.permFailed => (false, none, units)

section ClaimC4

/-- A job with a recorded executor pid. -/
def c4Job : Job :=
  { job_id := "job-4", name := "n", description := "d", status := JStatus.running,
    worker_prompt_template := "t", unit_type := "file", total_units := 2,
    created_at := 0, metadata := [("executor_pid", "123")] }

/-- A unit of that job stuck in status assigned. -/
def c4Unit : WorkUnit :=
  { unit_id := "u-4", job_id := "job-4", unit_type := "file",
    status := WUStatus.assigned, payload := [], created_at := 0,
    worker_id := some "w4", assigned_at := some 1 }

/-- Claim C4, counterexample: when the executor process is already gone,
kill_executor returns success and marks the job failed but does not invoke
reset_stuck_units, so a previously assigned unit stays assigned. -/
theorem C4_counterexample :
    (killExecutor (some c4Job) ProcCheck.gone KillOutcome.ok [c4Unit] "T1").1 = true ∧
    (killExecutor (some c4Job) ProcCheck.gone KillOutcome.ok [c4Unit] "T1").2.2 =
      [c4Unit] ∧
    c4Unit.status = WUStatus.assigned := by
  decide

/-- Claim C4 (amended): when kill_executor returns success the persisted job
has status failed and metadata.killed_at set; the stuck units are reset to
pending only on the path where the process was alive and the kill signal
succeeded, while the already-dead path leaves the unit table untouched. -/
theorem C4_kill_executor (j : Job) (units : List WorkUnit) (check : ProcCheck)
    (kill : KillOutcome) (now : String)
    (hpid : pidTruthy (metaLookup j.metadata "executor_pid") = true) :
    ((killExecutor (some j) check kill units now).1 = true →
      ∃ j', (killExecutor (some j) check kill units now).2.1 = some j' ∧
        j'.status = JStatus.failed ∧ metaLookup j'.metadata "killed_at" = some now) ∧
    (check = ProcCheck.alive → kill = KillOutcome.ok →
      killExecutor (some j) check kill units now =
        (true, some (markJobKilled j now "User requested kill"),
          resetStuckUnitsList j.job_id units)) ∧
    (check = ProcCheck.gone →
      killExecutor (some j) check kill units now =
        (true, some (markJobKilled j now "User requested kill (process already dead)"),
          units)) := by
  have hk : ∀ r, (markJobKilled j now r).status = JStatus.failed ∧
      metaLookup (markJobKilled j now r).metadata "killed_at" = some now := by
    intro r
    refine ⟨rfl, ?_⟩
    show metaLookup (metaSet (metaSet j.metadata "killed_at" now) "kill_reason" r)
      "killed_at" = some now
    rw [metaLookup_metaSet_other _ _ _ _ (by decide), metaLookup_metaSet_self]
  refine ⟨?_, ?_, ?_⟩
  · intro hsucc
    cases check with
    | gone =>
      refine ⟨markJobKilled j now "User requested kill (process already dead)",
        ?_, (hk _).1, (hk _).2⟩
      simp [killExecutor, hpid]
    | denied => simp [killExecutor, hpid] at hsucc
    | alive =>
      cases kill with
      | ok =>
        refine ⟨markJobKilled j now "User requested kill", ?_, (hk _).1, (hk _).2⟩
        simp [killExecutor, hpid]
      | lookupFailed => simp [killExecutor, hpid] at hsucc
      | permFailed => simp [killExecutor, hpid] at hsucc
  · intro hc hki
    subst hc; subst hki
    simp [killExecutor, hpid]
  · intro hc
    subst hc
    simp [killExecutor, hpid]

/-- Witness for C4_kill_executor: the alive-and-killed path on a concrete
job with one assigned unit. -/
theorem C4_kill_executor_witness :
    pidTruthy (metaLookup c4Job.metadata "executor_pid") = true ∧
    killExecutor (some c4Job) ProcCheck.alive KillOutcome.ok [c4Unit] "T1" =
      (true, some (markJobKilled c4Job "T1" "User requested kill"),
        resetStuckUnitsList c4Job.job_id [c4Unit]) :=
  ⟨by decide,
    (C4_kill_executor c4Job [c4Unit] ProcCheck.alive KillOutcome.ok "T1"
      (by decide)).2.1 rfl rfl⟩

end ClaimC4

/-- One segment of a prompt template: literal text or a `\x7bkey\x7d`
placeholder.  This is the template language _render_prompt supports
(workers/claude_cli_worker.py lines 260-280). -/
inductive Seg where
  | lit (s : String)
  | var (k : String)
deriving DecidableEq, Repr

/-- The source text of one segment, placeholders printed in braces. -/
def segSource : Seg → String
  | Seg.lit s => s
  | Seg.var k => "\x7b" ++ k ++ "\x7d"

/-- The template's source text. -/
def tmplSource (t : List Seg) : String :=
  String.join (t.map segSource)

/-- Python's str() of the payload dict, substituted for the special
`payload` placeholder; any injective printing will do. -/
def payloadStr (payload : List (String × String)) : String :=
  reprStr payload

/-- The substitution context of _render_prompt line 273:
`context = ("payload" maps to the whole payload) overridden by the
payload's own top-level entries`. -/
def ctxLookup (payload : List (String × String)) (k : String) : Option String :=
  match (payload.find? (fun e => e.1 = k)).map (fun e => e.2) with
  | some v => some v
  | none => if k = "payload" then some (payloadStr payload) else none

/-- The first placeholder of the template missing from the context: the key
of the KeyError `str.format` raises, scanning left to right. -/
def firstMissingKey (t : List Seg) (payload : List (String × String)) : Option String :=
  t.findSome? fun s =>
    match s with
    | Seg.lit _ => none
    | Seg.var k => if (ctxLookup payload k).isSome then none else some k

/-- ClaudeCliWorker._render_prompt (workers/claude_cli_worker.py lines
260-280): full substitution when every placeholder resolves, otherwise the
original template source followed by the sentinel error line naming the
missing variable (the KeyError prints the key in quotes). -/
def renderPrompt (t : List Seg) (payload : List (String × String)) : String :=
  match firstMissingKey t payload with
  | some k =>
    tmplSource t ++ "\n\n[ERROR: Missing template variable: \x27" ++ k ++ "\x27]"
  | none =>
    String.join (t.map fun s =>
      match s with
      | Seg.lit x => x
      | Seg.var k => (ctxLookup payload k).getD "")

/-- ClaudeCliWorker._build_command (workers/claude_cli_worker.py lines
113-138); the model and max-turns flags are appended only when truthy. -/
def buildCommand (cli_path : String) (model : Option String) (max_turns : Option Nat)
    (rendered : String) : List String :=
  [cli_path, "--print", rendered, "--output-format", "stream-json", "--verbose"]
    ++ (match model with
        | some m => if m ≠ "" then ["--model", m] else []
        | none => [])
    ++ (match max_turns with
        | some n => if n ≠ 0 then ["--max-turns", toString n] else []
        | none => [])

/-- ClaudeCliWorker.execute (workers/claude_cli_worker.py lines 52-93) up to
the subprocess spawn: the prompt is rendered, the command is built from the
rendered prompt, and that command is what Popen receives. -/
def executeInvokedCommand (cli_path : String) (model : Option String)
    (max_turns : Option Nat) (t : List Seg) (payload : List (String × String)) :
    List String :=
  buildCommand cli_path model max_turns (renderPrompt t payload)

theorem firstMissingKey_some (t : List Seg) (payload : List (String × String))
    (k : String) (hk : Seg.var k ∈ t) (hmiss : ctxLookup payload k = none) :
    ∃ m, firstMissingKey t payload = some m ∧ Seg.var m ∈ t ∧
      ctxLookup payload m = none := by
  induction t with
  | nil => cases hk
  | cons s rest ih =>
    cases s with
    | lit x =>
      have hk' : Seg.var k ∈ rest := by
        rcases List.mem_cons.mp hk with h1 | h1
        · cases h1
        · exact h1
      obtain ⟨m, hm, hmem, h2⟩ := ih hk'
      refine ⟨m, ?_, List.mem_cons_of_mem _ hmem, h2⟩
      simpa [firstMissingKey, List.findSome?_cons] using hm
    | var k0 =>
      by_cases hc : (ctxLookup payload k0).isSome
      · have hk' : Seg.var k ∈ rest := by
          rcases List.mem_cons.mp hk with h1 | h1
          · injection h1 with hkk
            subst hkk
            rw [hmiss] at hc
            simp at hc
          · exact h1
        obtain ⟨m, hm, hmem, h2⟩ := ih hk'
        refine ⟨m, ?_, List.mem_cons_of_mem _ hmem, h2⟩
        simpa [firstMissingKey, List.findSome?_cons, hc] using hm
      · have hc' : ctxLookup payload k0 = none := by
          cases hcc : ctxLookup payload k0
          · rfl
          · rw [hcc] at hc; simp at hc
        refine ⟨k0, ?_, List.mem_cons_self _ _, hc'⟩
        simp [firstMissingKey, List.findSome?_cons, hc]

section ClaimC8

/-- Claim C8: a placeholder whose key is neither a top-level payload field
nor the special key "payload" does not fail rendering: the rendered string
is the original template source followed by the sentinel error line naming
a missing variable, and the subprocess command still carries exactly that
string as the prompt argument. -/
theorem C8_missing_placeholder (cli_path : String) (model : Option String)
    (max_turns : Option Nat) (t : List Seg) (payload : List (String × String))
    (k : String) (hk : Seg.var k ∈ t)
    (hmiss : payload.find? (fun e => e.1 = k) = none) (hpay : k ≠ "payload") :
    ∃ m, Seg.var m ∈ t ∧ ctxLookup payload m = none ∧
      renderPrompt t payload =
        tmplSource t ++ "\n\n[ERROR: Missing template variable: \x27" ++ m ++ "\x27]" ∧
      renderPrompt t payload ∈ executeInvokedCommand cli_path model max_turns t payload := by
  have hmiss2 : ctxLookup payload k = none := by
    simp [ctxLookup, hmiss, hpay]
  obtain ⟨m, hm, hmem, hmiss'⟩ := firstMissingKey_some t payload k hk hmiss2
  refine ⟨m, hmem, hmiss', ?_, ?_⟩
  · simp [renderPrompt, hm]
  · simp [executeInvokedCommand, buildCommand]

/-- Witness for C8_missing_placeholder: a one-placeholder template over an
empty payload. -/
theorem C8_missing_placeholder_witness :
    Seg.var "x" ∈ [Seg.var "x"] ∧
    (([] : List (String × String)).find? (fun e => e.1 = "x") = none) ∧
    ("x" : String) ≠ "payload" ∧
    (∃ m, Seg.var m ∈ [Seg.var "x"] ∧ ctxLookup [] m = none ∧
      renderPrompt [Seg.var "x"] [] =
        tmplSource [Seg.var "x"] ++
          "\n\n[ERROR: Missing template variable: \x27" ++ m ++ "\x27]" ∧
      renderPrompt [Seg.var "x"] [] ∈
        executeInvokedCommand "claude" none none [Seg.var "x"] []) :=
  ⟨by simp, by rfl, by decide,
    C8_missing_placeholder "claude" none none [Seg.var "x"] [] "x"
      (by simp) (by rfl) (by decide)⟩

end ClaimC8

/-- Repository.get_job_total_cost (persistence/repository.py lines 821-835):
the SQL SUM over the job's units with non-null cost_usd, NULL when no row
matches; the final `row["total"] if row and row["total"] else None` maps
both NULL and a 0.0 sum to None. -/
def getJobTotalCost (job_id : String) (units : List WorkUnit) : Option Rat :=
  let costs := (units.filter (fun u => u.job_id = job_id)).filterMap (fun u => u.cost_usd)
  if costs.isEmpty then none
  else if costs.sum = 0 then none
  else some costs.sum

section ClaimC9

/-- A unit of job-9 with a recorded cost of 0.0. -/
def c9Unit : WorkUnit :=
  { unit_id := "u-9", job_id := "job-9", unit_type := "file",
    status := WUStatus.completed, payload := [], created_at := 0,
    cost_usd := some 0 }

/-- Claim C9, counterexample: a job whose only unit records cost 0.0 has the
recorded costs summing to 0.0, yet get_job_total_cost returns None (the
Python falsy test on the SQL total), not that sum. -/
theorem C9_counterexample :
    c9Unit.cost_usd = some 0 ∧ getJobTotalCost "job-9" [c9Unit] = none := by
  refine ⟨rfl, ?_⟩
  simp [getJobTotalCost, c9Unit]

/-- Claim C9 (amended): get_job_total_cost returns the sum of the recorded
per-unit costs when at least one unit of the job has a recorded cost and the
sum is non-zero; it returns None when no cost is recorded or the sum equals
0.0. -/
theorem C9_get_job_total_cost (job_id : String) (units : List WorkUnit) :
    (((units.filter (fun u => u.job_id = job_id)).filterMap
        (fun u => u.cost_usd)).isEmpty = false →
      ((units.filter (fun u => u.job_id = job_id)).filterMap
        (fun u => u.cost_usd)).sum ≠ 0 →
      getJobTotalCost job_id units =
        some (((units.filter (fun u => u.job_id = job_id)).filterMap
          (fun u => u.cost_usd)).sum)) ∧
    (((units.filter (fun u => u.job_id = job_id)).filterMap
        (fun u => u.cost_usd)).isEmpty = true →
      getJobTotalCost job_id units = none) ∧
    (((units.filter (fun u => u.job_id = job_id)).filterMap
        (fun u => u.cost_usd)).sum = 0 →
      getJobTotalCost job_id units = none) := by
  refine ⟨fun h1 h2 => ?_, fun h1 => ?_, fun h1 => ?_⟩
  · simp only [getJobTotalCost, h1, h2]
    simp [h2]
  · simp [getJobTotalCost, h1]
  · simp [getJobTotalCost, h1]

/-- A unit of job-9 with a recorded non-zero cost. -/
def c9bUnit : WorkUnit :=
  { unit_id := "u-9b", job_id := "job-9", unit_type := "file",
    status := WUStatus.completed, payload := [], created_at := 0,
    cost_usd := some 2 }

/-- Witness for C9_get_job_total_cost: one recorded non-zero cost. -/
theorem C9_get_job_total_cost_witness :
    (([c9bUnit].filter (fun u => u.job_id = "job-9")).filterMap
      (fun u => u.cost_usd)).isEmpty = false ∧
    getJobTotalCost "job-9" [c9bUnit] =
      some ((([c9bUnit].filter (fun u => u.job_id = "job-9")).filterMap
        (fun u => u.cost_usd)).sum) :=
  ⟨by simp [c9bUnit],
    (C9_get_job_total_cost "job-9" [c9bUnit]).1 (by simp [c9bUnit])
      (by simp [c9bUnit])⟩

end ClaimC9

/-- The `.value` string of a job status (core/models.py lines 27-37). -/
def jStatusValue : JStatus → String
  | JStatus.created => "created"
  | JStatus.testing => "testing"
  | JStatus.ready => "ready"
  | JStatus.running => "running"
  | JStatus.paused => "paused"
  | JStatus.post_processing => "post_processing"
  | JStatus.completed => "completed"
  | JStatus.failed => "failed"

/-- JobStatus(s): parse a status string, `none` when the enum constructor
would raise. -/
def jStatusParse (s : String) : Option JStatus :=
  if s = "created" then some JStatus.created
  else if s = "testing" then some JStatus.testing
  else if s = "ready" then some JStatus.ready
  else if s = "running" then some JStatus.running
  else if s = "paused" then some JStatus.paused
  else if s = "post_processing" then some JStatus.post_processing
  else if s = "completed" then some JStatus.completed
  else if s = "failed" then some JStatus.failed
  else none

/-- WorkUnitStatus(s): parse a work-unit status string. -/
def wuStatusParse (s : String) : Option WUStatus :=
  if s = "pending" then some WUStatus.pending
  else if s = "assigned" then some WUStatus.assigned
  else if s = "processing" then some WUStatus.processing
  else if s = "completed" then some WUStatus.completed
  else if s = "failed" then some WUStatus.failed
  else none

/-- The `.value` string of a worker status (core/models.py lines 40-46). -/
def wStatusValue : WStatus → String
  | WStatus.idle => "idle"
  | WStatus.busy => "busy"
  | WStatus.failed => "failed"
  | WStatus.terminated => "terminated"

/-- WorkerStatus(s): parse a worker status string. -/
def wStatusParse (s : String) : Option WStatus :=
  if s = "idle" then some WStatus.idle
  else if s = "busy" then some WStatus.busy
  else if s = "failed" then some WStatus.failed
  else if s = "terminated" then some WStatus.terminated
  else none

theorem jStatusParse_value (s : JStatus) : jStatusParse (jStatusValue s) = some s := by
  cases s <;> rfl

theorem wuStatusParse_value (s : WUStatus) : wuStatusParse (wuStatusValue s) = some s := by
  cases s <;> rfl

theorem wStatusParse_value (s : WStatus) : wStatusParse (wStatusValue s) = some s := by
  cases s <;> rfl

/-- A row of the jobs table.  JSON-encoded columns are modelled by the
structured value they encode (json.dumps/json.loads is an inverse pair on
them, and a dumped string is always non-empty hence truthy); SQL NULL is
`none`; booleans are stored as integers. -/
structure JobRow where
  job_id : String
  name : String
  description : String
  status : String
  worker_prompt_template : String
  unit_type : String
  total_units : Nat
  completed_units : Nat
  failed_units : Nat
  max_workers : Nat
  created_at : Nat
  started_at : Option Nat
  completed_at : Option Nat
  test_unit_id : Option String
  test_passed : Nat
  output_strategy : String
  metadata : List (String × String)
  post_processing_prompt : Option String
  post_processing_unit_id : Option String
  bypass_failures : Nat
deriving DecidableEq, Repr

/-- A row of the work_units table. -/
structure WorkUnitRow where
  unit_id : String
  job_id : String
  unit_type : String
  status : String
  payload : List (String × String)
  created_at : Nat
  assigned_at : Option Nat
  started_at : Option Nat
  completed_at : Option Nat
  worker_id : Option String
  result : Option (List (String × String))
  error : Option String
  retry_count : Nat
  max_retries : Nat
  execution_time_seconds : Option Rat
  output_files : List String
  rendered_prompt : Option String
  conversation : Option (List String)
  session_id : Option String
  cost_usd : Option Rat
  process_id : Option Nat
deriving DecidableEq, Repr

/-- A row of the workers table. -/
structure WorkerRow where
  worker_id : String
  status : String
  job_id : Option String
  current_unit_id : Option String
  process_id : Option Nat
  started_at : Nat
  last_heartbeat : Option Nat
  units_completed : Nat
  units_failed : Nat
  total_execution_time : Rat
deriving DecidableEq, Repr

/-- Repository.create_job's INSERT (repository.py lines 193-233): every Job
field is written; metadata is dumped unconditionally. -/
def createJobRow (j : Job) : JobRow :=
  { job_id := j.job_id
    name := j.name
    description := j.description
    status := jStatusValue j.status
    worker_prompt_template := j.worker_prompt_template
    unit_type := j.unit_type
    total_units := j.total_units
    completed_units := j.completed_units
    failed_units := j.failed_units
    max_workers := j.max_workers
    created_at := j.created_at
    started_at := j.started_at
    completed_at := j.completed_at
    test_unit_id := j.test_unit_id
    test_passed := if j.test_passed then 1 else 0
    output_strategy := j.output_strategy
    metadata := j.metadata
    post_processing_prompt := j.post_processing_prompt
    post_processing_unit_id := j.post_processing_unit_id
    bypass_failures := if j.bypass_failures then 1 else 0 }

/-- Repository.create_work_unit's INSERT (repository.py lines 300-339):
`json.dumps(x) if x else None` stores NULL for a missing or empty result
dict and conversation list, and the column list omits process_id, which
therefore defaults to NULL. -/
def createWorkUnitRow (u : WorkUnit) : WorkUnitRow :=
  { unit_id := u.unit_id
    job_id := u.job_id
    unit_type := u.unit_type
    status := wuStatusValue u.status
    payload := u.payload
    created_at := u.created_at
    assigned_at := u.assigned_at
    started_at := u.started_at
    completed_at := u.completed_at
    worker_id := u.worker_id
    result := match u.result with
      | some d => if d.isEmpty then none else some d
      | none => none
    error := u.error
    retry_count := u.retry_count
    max_retries := u.max_retries
    execution_time_seconds := u.execution_time_seconds
    output_files := u.output_files
    rendered_prompt := u.rendered_prompt
    conversation := match u.conversation with
      | some l => if l.isEmpty then none else some l
      | none => none
    session_id := u.session_id
    cost_usd := u.cost_usd
    process_id := none }

/-- Repository.create_worker's INSERT (repository.py lines 441-468): every
field is written. -/
def createWorkerRow (w : WorkerProcess) : WorkerRow :=
  { worker_id := w.worker_id
    status := wStatusValue w.status
    job_id := w.job_id
    current_unit_id := w.current_unit_id
    process_id := w.process_id
    started_at := w.started_at
    last_heartbeat := w.last_heartbeat
    units_completed := w.units_completed
    units_failed := w.units_failed
    total_execution_time := w.total_execution_time }

/-- Repository._row_to_job (repository.py lines 569-596); `none` when the
status string would make the JobStatus constructor raise.  A dumped
metadata string is always truthy, so the `if row["metadata"] else` branch
is the identity here. -/
def rowToJob (r : JobRow) : Option Job :=
  match jStatusParse r.status with
  | none => none
  | some st =>
    some
      { job_id := r.job_id
        name := r.name
        description := r.description
        status := st
        worker_prompt_template := r.worker_prompt_template
        unit_type := r.unit_type
        total_units := r.total_units
        completed_units := r.completed_units
        failed_units := r.failed_units
        max_workers := r.max_workers
        created_at := r.created_at
        started_at := r.started_at
        completed_at := r.completed_at
        test_unit_id := r.test_unit_id
        test_passed := decide (r.test_passed ≠ 0)
        output_strategy := r.output_strategy
        metadata := r.metadata
        post_processing_prompt := r.post_processing_prompt
        post_processing_unit_id := r.post_processing_unit_id
        bypass_failures := decide (r.bypass_failures ≠ 0) }

/-- Repository._row_to_work_unit (repository.py lines 598-631):
`json.loads(row[c]) if row[c] else None` keeps NULL as None, and a stored
JSON string is non-empty hence truthy; output_files falls back to the empty
list on NULL. -/
def rowToWorkUnit (r : WorkUnitRow) : Option WorkUnit :=
  match wuStatusParse r.status with
  | none => none
  | some st =>
    some
      { unit_id := r.unit_id
        job_id := r.job_id
        unit_type := r.unit_type
        status := st
        payload := r.payload
        created_at := r.created_at
        assigned_at := r.assigned_at
        started_at := r.started_at
        completed_at := r.completed_at
        worker_id := r.worker_id
        result := r.result
        error := r.error
        retry_count := r.retry_count
        max_retries := r.max_retries
        execution_time_seconds := r.execution_time_seconds
        output_files := r.output_files
        rendered_prompt := r.rendered_prompt
        conversation := r.conversation
        session_id := r.session_id
        cost_usd := r.cost_usd
        process_id := r.process_id }

/-- Repository._row_to_worker (repository.py lines 633-646). -/
def rowToWorker (r : WorkerRow) : Option WorkerProcess :=
  match wStatusParse r.status with
  | none => none
  | some st =>
    some
      { worker_id := r.worker_id
        status := st
        job_id := r.job_id
        current_unit_id := r.current_unit_id
        process_id := r.process_id
        started_at := r.started_at
        last_heartbeat := r.last_heartbeat
        units_completed := r.units_completed
        units_failed := r.units_failed
        total_execution_time := r.total_execution_time }

section ClaimC7

/-- A work unit with a live process id and empty result/conversation. -/
def c7Unit : WorkUnit :=
  { unit_id := "u-7", job_id := "job-7", unit_type := "file",
    status := WUStatus.processing, payload := [("k", "v")], created_at := 1,
    started_at := some 2, worker_id := some "w7", result := some [],
    conversation := some [], process_id := some 7 }

/-- Claim C7, counterexample: writing a WorkUnit and reading it back is not
the identity — create_work_unit's INSERT omits the process_id column and
stores NULL for a falsy (empty) result dict and conversation list, so a
unit with process_id 7 and empty result/conversation comes back with all
three replaced by None. -/
theorem C7_counterexample :
    c7Unit.process_id = some 7 ∧ c7Unit.result = some [] ∧
    c7Unit.conversation = some [] ∧
    rowToWorkUnit (createWorkUnitRow c7Unit) =
      some { c7Unit with process_id := none, result := none, conversation := none } ∧
    rowToWorkUnit (createWorkUnitRow c7Unit) ≠ some c7Unit := by
  refine ⟨rfl, rfl, rfl, rfl, ?_⟩
  intro h
  simp [rowToWorkUnit, createWorkUnitRow, c7Unit, wuStatusParse, wuStatusValue] at h

/-- Claim C7 (amended): the database round-trip is the identity on Job and
WorkerProcess; on WorkUnit it is the identity except that process_id is
dropped and an empty result dict or empty conversation list collapses to
None. -/
theorem C7_roundtrip (j : Job) (u : WorkUnit) (w : WorkerProcess) :
    rowToJob (createJobRow j) = some j ∧
    rowToWorker (createWorkerRow w) = some w ∧
    rowToWorkUnit (createWorkUnitRow u) =
      some { u with
              process_id := none
              result := match u.result with
                | some d => if d.isEmpty then none else some d
                | none => none
              conversation := match u.conversation with
                | some l => if l.isEmpty then none else some l
                | none => none } := by
  have hbool : ∀ b : Bool, decide ((if b then (1 : Nat) else 0) ≠ 0) = b := by
    intro b; cases b <;> rfl
  refine ⟨?_, ?_, ?_⟩
  · simp only [rowToJob, createJobRow, jStatusParse_value, hbool]
  · simp only [rowToWorker, createWorkerRow, wStatusParse_value]
  · simp only [rowToWorkUnit, createWorkUnitRow, wuStatusParse_value]

end ClaimC7

/-- A row of the logs table (repository.py lines 136-151); the autoincrement
id is left to the database and omitted. -/
structure LogRow where
  job_id : String
  source : String
  level : String
  message : String
  timestamp : Nat
  worker_id : Option String
  unit_id : Option String
  extra : Option (List (String × String))
deriving DecidableEq, Repr

/-- The database state: the four tables. -/
structure Db where
  jobs : List JobRow
  units : List WorkUnitRow
  workers : List WorkerRow
  logs : List LogRow
deriving DecidableEq, Repr

/-- Repository.update_job's UPDATE (repository.py lines 243-274): only the
listed columns are rewritten. -/
def applyJobUpdate (r : JobRow) (j : Job) : JobRow :=
  { r with
      status := jStatusValue j.status
      completed_units := j.completed_units
      failed_units := j.failed_units
      started_at := j.started_at
      completed_at := j.completed_at
      test_unit_id := j.test_unit_id
      test_passed := if j.test_passed then 1 else 0
      metadata := j.metadata
      post_processing_prompt := j.post_processing_prompt
      post_processing_unit_id := j.post_processing_unit_id
      bypass_failures := if j.bypass_failures then 1 else 0 }

/-- Repository.update_work_unit's UPDATE (repository.py lines 349-384),
with the same falsy-to-NULL guards on result and conversation as the
INSERT; this one does write process_id. -/
def applyWorkUnitUpdate (r : WorkUnitRow) (u : WorkUnit) : WorkUnitRow :=
  { r with
      status := wuStatusValue u.status
      assigned_at := u.assigned_at
      started_at := u.started_at
      completed_at := u.completed_at
      worker_id := u.worker_id
      result := match u.result with
        | some d => if d.isEmpty then none else some d
        | none => none
      error := u.error
      retry_count := u.retry_count
      execution_time_seconds := u.execution_time_seconds
      output_files := u.output_files
      rendered_prompt := u.rendered_prompt
      conversation := match u.conversation with
        | some l => if l.isEmpty then none else some l
        | none => none
      session_id := u.session_id
      cost_usd := u.cost_usd
      process_id := u.process_id }

/-- Repository.update_worker's UPDATE (repository.py lines 470-495). -/
def applyWorkerUpdate (r : WorkerRow) (w : WorkerProcess) : WorkerRow :=
  { r with
      status := wStatusValue w.status
      job_id := w.job_id
      current_unit_id := w.current_unit_id
      last_heartbeat := w.last_heartbeat
      units_completed := w.units_completed
      units_failed := w.units_failed
      total_execution_time := w.total_execution_time }

/-- The repository mutation operations of persistence/repository.py that
return booleans. -/
inductive RepoOp where
  | createJob (j : Job)
  | updateJob (j : Job)
  | createWorkUnit (u : WorkUnit)
  | updateWorkUnit (u : WorkUnit)
  | createWorker (w : WorkerProcess)
  | updateWorker (w : WorkerProcess)
  | addLog (l : LogRow)
  | appendConversationEvent (unit_id : String) (event : String)
  | setWorkUnitSessionId (unit_id : String) (session_id : String)
  | setWorkUnitProcessId (unit_id : String) (process_id : Option Nat)
deriving DecidableEq, Repr

/-- The SQL body of each mutation inside its transaction.  An INSERT on an
existing primary key raises (IntegrityError is a sqlite3.Error), which the
wrapper turns into False with the transaction rolled back; an UPDATE that
matches no row succeeds.  append_conversation_event returns False when the
unit row is missing (repository.py lines 776-777). -/
def runRepoOpBody (o : RepoOp) (db : Db) : Bool × Db :=
  match o with
  | RepoOp.createJob j =>
    if db.jobs.any (fun r => r.job_id = j.job_id) then (false, db)
    else (true, { db with jobs := db.jobs ++ [createJobRow j] })
  | RepoOp.updateJob j =>
    (true, { db with jobs := db.jobs.map fun r =>
      if r.job_id = j.job_id then applyJobUpdate r j else r })
  | RepoOp.createWorkUnit u =>
    if db.units.any (fun r => r.unit_id = u.unit_id) then (false, db)
    else (true, { db with units := db.units ++ [createWorkUnitRow u] })
  | RepoOp.updateWorkUnit u =>
    (true, { db with units := db.units.map fun r =>
      if r.unit_id = u.unit_id then applyWorkUnitUpdate r u else r })
  | RepoOp.createWorker w =>
    if db.workers.any (fun r => r.worker_id = w.worker_id) then (false, db)
    else (true, { db with workers := db.workers ++ [createWorkerRow w] })
  | RepoOp.updateWorker w =>
    (true, { db with workers := db.workers.map fun r =>
      if r.worker_id = w.worker_id then applyWorkerUpdate r w else r })
  | RepoOp.addLog l =>
    (true, { db with logs := db.logs ++ [l] })
  | RepoOp.appendConversationEvent uid e =>
    match db.units.find? (fun r => r.unit_id = uid) with
    | none => (false, db)
    | some _ =>
      (true, { db with units := db.units.map fun r =>
        if r.unit_id = uid then
          { r with conversation := some ((r.conversation.getD []) ++ [e]) }
        else r })
  | RepoOp.setWorkUnitSessionId uid sid =>
    (true, { db with units := db.units.map fun r =>
      if r.unit_id = uid then { r with session_id := some sid } else r })
  | RepoOp.setWorkUnitProcessId uid pid =>
    (true, { db with units := db.units.map fun r =>
      if r.unit_id = uid then { r with process_id := pid } else r })

/-- One repository mutation run under the _get_connection context manager
(repository.py lines 46-61) and the `except sqlite3.Error: return False`
wrapper every mutation carries: when the database layer raises, the
transaction is rolled back and the operation reports False instead of
raising. -/
def runRepoOp (o : RepoOp) (dbError : Bool) (db : Db) : Bool × Db :=
  if dbError then (false, db) else runRepoOpBody o db

section ClaimC10

/-- Claim C10: every repository mutation returns a boolean — on a database
error the transaction is rolled back (the state is unchanged) and the
operation returns False; append_conversation_event also returns False,
without raising, when the target unit row does not exist. -/
theorem C10_repo_mutations (o : RepoOp) (db : Db) :
    runRepoOp o true db = (false, db) ∧
    (∀ uid e, db.units.find? (fun r => r.unit_id = uid) = none →
      runRepoOp (RepoOp.appendConversationEvent uid e) false db = (false, db)) := by
  constructor
  · rfl
  · intro uid e h
    simp [runRepoOp, runRepoOpBody, h]

/-- The empty database. -/
def emptyDb : Db :=
  { jobs := [], units := [], workers := [], logs := [] }

/-- Witness for C10_repo_mutations: an append on a missing unit in the
empty database, under both a database error and a clean run. -/
theorem C10_repo_mutations_witness :
    emptyDb.units.find? (fun r => r.unit_id = "u") = none ∧
    runRepoOp (RepoOp.appendConversationEvent "u" "ev") true emptyDb =
      (false, emptyDb) ∧
    runRepoOp (RepoOp.appendConversationEvent "u" "ev") false emptyDb =
      (false, emptyDb) :=
  ⟨rfl, (C10_repo_mutations (RepoOp.appendConversationEvent "u" "ev") emptyDb).1,
    (C10_repo_mutations (RepoOp.appendConversationEvent "u" "ev") emptyDb).2 "u" "ev" rfl⟩

end ClaimC10

/-! The counter transition system for claim C2: the job's lifecycle status
and counters together with the status of every unit, and one transition per
code path that touches them.  Unit indices refer to positions in the unit
list; a transition returns `none` when its code path cannot fire (its guard,
as checked by the code, is false). -/

/-- The slice of a work unit's state the job counters depend on. -/
structure UnitState where
  status : WUStatus
  retry_count : Nat
  max_retries : Nat
  isPost : Bool
deriving DecidableEq, Repr

/-- The system state: job lifecycle status, counters, configuration and the
per-unit states. -/
structure SysState where
  jobStatus : JStatus
  completed : Nat
  failed : Nat
  total : Nat
  bypass : Bool
  postPrompt : Option String
  units : List UnitState
deriving DecidableEq, Repr

/-- Repository.reset_stuck_units projected onto unit states. -/
def resetStuckStates (l : List UnitState) : List UnitState :=
  l.map fun u =>
    if u.status = WUStatus.assigned ∨ u.status = WUStatus.processing then
      { u with status := WUStatus.pending }
    else u

/-- JobExecutor._determine_final_status applied to the system state: the
post-processing unit is the unit flagged isPost. -/
def finalStatusSys (s : SysState) : JStatus :=
  determineFinalStatus
    { job_id := "", name := "", description := "", status := s.jobStatus,
      worker_prompt_template := "", unit_type := "", total_units := s.total,
      created_at := 0, completed_units := s.completed, failed_units := s.failed,
      bypass_failures := s.bypass, post_processing_prompt := s.postPrompt }
    ((s.units.find? (fun u => u.isPost)).map fun u =>
      { unit_id := "", job_id := "", unit_type := "", status := u.status,
        payload := [], created_at := 0 })

/-- The operations of the executor, orchestrator and process controls that
touch the job status, the counters or the unit statuses. -/
inductive Op where
  | submit (i : Nat)
  | startUnit (i : Nat)
  | completeUnit (i : Nat)
  | failUnit (i : Nat)
  | restartUnit (i : Nat)
  | killUnit (i : Nat)
  | runTest (i : Nat) (success : Bool)
  | rejectTest
  | startExecutor
  | createPostUnit (max_retries : Nat)
  | finalize
  | killExecutorAlive
  | killExecutorDead
  | crash
deriving DecidableEq, Repr

/-- One step of the system.
* submit: WorkerPool.submit_work_unit on a pending unit while the executor
  dispatch loop (job running) or post-processing is active: pending →
  assigned.
* startUnit: the worker body marks its unit processing.
* completeUnit: driver success — unit completed; _on_unit_complete
  increments completed_units unless the unit is the post-processing unit.
* failUnit: driver failure — _on_unit_failed retries (back to pending,
  retry_count+1) when retry_count < max_retries, else the unit stays failed
  and failed_units is incremented unless it is the post-processing unit.
* restartUnit: JobExecutor.restart_work_unit — only from failed; unit back
  to pending, failed_units decremented with floor 0 (natural subtraction).
* killUnit: JobExecutor.kill_work_unit on a unit with a recorded subprocess
  pid (possible only while processing, or failed via the crash path that
  skips clearing the pid): the unit is marked failed, counters untouched.
* runTest: Orchestrator._run_test_phase on a created job: job → testing, the
  chosen pending unit ends completed or failed, and on success
  completed_units is set to 1.
* rejectTest: start_job(approve=False) on a testing job: back to created.
* startExecutor: JobExecutor._run_job_loop startup (also reached via
  start_job skip-test / approve / restart and resume_job): recovery resets
  stuck units, then the job is running.
* createPostUnit: JobExecutor._run_post_processing: job → post_processing
  and the synthetic post-processing unit is appended (not counted in
  total_units).
* finalize: the executor computes and persists the final status.
* killExecutorAlive / killExecutorDead: kill_executor success paths — job
  failed; only the alive path resets stuck units.
* crash: the executor crash path — job failed. -/
def applyOp (o : Op) (s : SysState) : Option SysState :=
  match o with
  | Op.submit i =>
    match s.units[i]? with
    | none => none
    | some u =>
      if (s.jobStatus = JStatus.running ∨ s.jobStatus = JStatus.post_processing) ∧
          u.status = WUStatus.pending then
        some { s with units := s.units.set i { u with status := WUStatus.assigned } }
      else none
  | Op.startUnit i =>
    match s.units[i]? with
    | none => none
    | some u =>
      if u.status = WUStatus.assigned then
        some { s with units := s.units.set i { u with status := WUStatus.processing } }
      else none
  | Op.completeUnit i =>
    match s.units[i]? with
    | none => none
    | some u =>
      if u.status = WUStatus.processing then
        some { s with
          units := s.units.set i { u with status := WUStatus.completed }
          completed := if u.isPost then s.completed else s.completed + 1 }
      else none
  | Op.failUnit i =>
    match s.units[i]? with
    | none => none
    | some u =>
      if u.status = WUStatus.processing then
        if u.retry_count < u.max_retries then
          some { s with
            units := s.units.set i
              { u with status := WUStatus.pending, retry_count := u.retry_count + 1 } }
        else
          some { s with
            units := s.units.set i { u with status := WUStatus.failed }
            failed := if u.isPost then s.failed else s.failed + 1 }
      else none
  | Op.restartUnit i =>
    match s.units[i]? with
    | none => none
    | some u =>
      if u.status = WUStatus.failed then
        some { s with
          units := s.units.set i { u with status := WUStatus.pending }
          failed := s.failed - 1 }
      else none
  | Op.killUnit i =>
    match s.units[i]? with
    | none => none
    | some u =>
      if u.status = WUStatus.processing ∨ u.status = WUStatus.failed then
        some { s with units := s.units.set i { u with status := WUStatus.failed } }
      else none
  | Op.runTest i success =>
    match s.units[i]? with
    | none => none
    | some u =>
      if s.jobStatus = JStatus.created ∧ u.status = WUStatus.pending then
        some { s with
          jobStatus := JStatus.testing
          units := s.units.set i
            { u with status := if success then WUStatus.completed else WUStatus.failed }
          completed := if success then 1 else s.completed }
      else none
  | Op.rejectTest =>
    if s.jobStatus = JStatus.testing then some { s with jobStatus := JStatus.created }
    else none
  | Op.startExecutor =>
    some { s with jobStatus := JStatus.running, units := resetStuckStates s.units }
  | Op.createPostUnit mr =>
    if s.jobStatus = JStatus.running then
      some { s with
        jobStatus := JStatus.post_processing
        units := s.units ++ [⟨WUStatus.pending, 0, mr, true⟩] }
    else none
  | Op.finalize =>
    if s.jobStatus = JStatus.running ∨ s.jobStatus = JStatus.post_processing then
      some { s with jobStatus := finalStatusSys s }
    else none
  | Op.killExecutorAlive =>
    some { s with jobStatus := JStatus.failed, units := resetStuckStates s.units }
  | Op.killExecutorDead =>
    some { s with jobStatus := JStatus.failed }
  | Op.crash =>
    some { s with jobStatus := JStatus.failed }

/-- The state right after Orchestrator.create_job: job created, counters
zero, n pending regular units with the configured retry ceiling. -/
def initState (n mr : Nat) (bypass : Bool) (postPrompt : Option String) : SysState :=
  { jobStatus := JStatus.created, completed := 0, failed := 0, total := n,
    bypass := bypass, postPrompt := postPrompt,
    units := List.replicate n ⟨WUStatus.pending, 0, mr, false⟩ }

/-- States reachable from some freshly created job by the code's
operations. -/
inductive Reachable : SysState → Prop where
  | init (n mr : Nat) (b : Bool) (p : Option String) : Reachable (initState n mr b p)
  | step {s s' : SysState} (o : Op) : Reachable s → applyOp o s = some s' → Reachable s'

/-- Number of regular (non-post-processing) units with status completed. -/
def ccCount (l : List UnitState) : Nat :=
  l.countP fun u => decide (u.isPost = false ∧ u.status = WUStatus.completed)

/-- Number of regular units with status failed. -/
def cfCount (l : List UnitState) : Nat :=
  l.countP fun u => decide (u.isPost = false ∧ u.status = WUStatus.failed)

/-- Number of regular units. -/
def npCount (l : List UnitState) : Nat :=
  l.countP fun u => decide (u.isPost = false)

/-- The inductive invariant: the counters are bounded by the unit-status
counts, total_units counts the regular units, and before the executor ever
starts (created/testing) the job has at most one completed unit, no post
unit and no in-flight unit. -/
def Inv (s : SysState) : Prop :=
  s.completed ≤ ccCount s.units ∧
  s.failed ≤ cfCount s.units ∧
  npCount s.units = s.total ∧
  ((s.jobStatus = JStatus.created ∨ s.jobStatus = JStatus.testing) →
    s.completed ≤ 1 ∧
    ∀ u ∈ s.units, u.isPost = false ∧ u.status ≠ WUStatus.assigned ∧
      u.status ≠ WUStatus.processing)

theorem countP_set_add_gen {α : Type} (p : α → Bool) (l : List α) (i : Nat)
    (a u : α) (hu : l[i]? = some u) :
    (l.set i a).countP p + (if p u then 1 else 0) =
      l.countP p + (if p a then 1 else 0) := by
  obtain ⟨hi, hgi⟩ := List.getElem?_eq_some_iff.mp hu
  have hcs := List.countP_set p l i a hi
  have hle := List.boole_getElem_le_countP p l i hi
  rw [hgi] at hcs hle
  omega

theorem countP_map_eq (p : UnitState → Bool) (f : UnitState → UnitState)
    (l : List UnitState) (hf : ∀ u, p (f u) = p u) :
    (l.map f).countP p = l.countP p := by
  rw [List.countP_map]
  exact List.countP_congr fun x _ => by simp [Function.comp, hf x]

theorem ccCount_resetStuck (l : List UnitState) :
    ccCount (resetStuckStates l) = ccCount l := by
  refine countP_map_eq _ _ l fun u => ?_
  by_cases h : u.status = WUStatus.assigned ∨ u.status = WUStatus.processing
  · rcases h with h | h <;> simp [h]
  · simp [h]

theorem cfCount_resetStuck (l : List UnitState) :
    cfCount (resetStuckStates l) = cfCount l := by
  refine countP_map_eq _ _ l fun u => ?_
  by_cases h : u.status = WUStatus.assigned ∨ u.status = WUStatus.processing
  · rcases h with h | h <;> simp [h]
  · simp [h]

theorem npCount_resetStuck (l : List UnitState) :
    npCount (resetStuckStates l) = npCount l := by
  refine countP_map_eq _ _ l fun u => ?_
  by_cases h : u.status = WUStatus.assigned ∨ u.status = WUStatus.processing
  · rcases h with h | h <;> simp [h]
  · simp [h]

theorem cc_add_cf_le_np (l : List UnitState) :
    ccCount l + cfCount l ≤ npCount l := by
  induction l with
  | nil => simp [ccCount, cfCount, npCount]
  | cons x xs ih =>
    simp only [ccCount, cfCount, npCount, List.countP_cons] at ih ⊢
    have hpt :
        (if decide (x.isPost = false ∧ x.status = WUStatus.completed) = true
          then (1 : Nat) else 0) +
        (if decide (x.isPost = false ∧ x.status = WUStatus.failed) = true
          then (1 : Nat) else 0) ≤
        (if decide (x.isPost = false) = true then (1 : Nat) else 0) := by
      by_cases hp : x.isPost = false
      · cases hv : x.status <;> simp [hp, hv]
      · simp [hp]
    omega

theorem countP_set_eq {α : Type} (p : α → Bool) (l : List α) (i : Nat) (a u : α)
    (hu : l[i]? = some u) (hp : p u = p a) :
    (l.set i a).countP p = l.countP p := by
  have h := countP_set_add_gen p l i a u hu
  rw [hp] at h
  omega

theorem countP_set_succ {α : Type} (p : α → Bool) (l : List α) (i : Nat) (a u : α)
    (hu : l[i]? = some u) (hpu : p u = false) (hpa : p a = true) :
    (l.set i a).countP p = l.countP p + 1 := by
  have h := countP_set_add_gen p l i a u hu
  rw [hpu, hpa] at h
  simp at h
  omega

theorem countP_set_pred {α : Type} (p : α → Bool) (l : List α) (i : Nat) (a u : α)
    (hu : l[i]? = some u) (hpu : p u = true) (hpa : p a = false) :
    (l.set i a).countP p + 1 = l.countP p := by
  have h := countP_set_add_gen p l i a u hu
  rw [hpu, hpa] at h
  simp at h
  omega

theorem ccCount_set_eq {l : List UnitState} {i : Nat} {u : UnitState} (a : UnitState)
    (hu : l[i]? = some u)
    (hp : decide (u.isPost = false ∧ u.status = WUStatus.completed) =
      decide (a.isPost = false ∧ a.status = WUStatus.completed)) :
    ccCount (l.set i a) = ccCount l :=
  countP_set_eq _ l i a u hu hp

theorem ccCount_set_succ {l : List UnitState} {i : Nat} {u : UnitState} (a : UnitState)
    (hu : l[i]? = some u)
    (hpu : decide (u.isPost = false ∧ u.status = WUStatus.completed) = false)
    (hpa : decide (a.isPost = false ∧ a.status = WUStatus.completed) = true) :
    ccCount (l.set i a) = ccCount l + 1 :=
  countP_set_succ _ l i a u hu hpu hpa

theorem cfCount_set_eq {l : List UnitState} {i : Nat} {u : UnitState} (a : UnitState)
    (hu : l[i]? = some u)
    (hp : decide (u.isPost = false ∧ u.status = WUStatus.failed) =
      decide (a.isPost = false ∧ a.status = WUStatus.failed)) :
    cfCount (l.set i a) = cfCount l :=
  countP_set_eq _ l i a u hu hp

theorem cfCount_set_succ {l : List UnitState} {i : Nat} {u : UnitState} (a : UnitState)
    (hu : l[i]? = some u)
    (hpu : decide (u.isPost = false ∧ u.status = WUStatus.failed) = false)
    (hpa : decide (a.isPost = false ∧ a.status = WUStatus.failed) = true) :
    cfCount (l.set i a) = cfCount l + 1 :=
  countP_set_succ _ l i a u hu hpu hpa

theorem cfCount_set_pred {l : List UnitState} {i : Nat} {u : UnitState} (a : UnitState)
    (hu : l[i]? = some u)
    (hpu : decide (u.isPost = false ∧ u.status = WUStatus.failed) = true)
    (hpa : decide (a.isPost = false ∧ a.status = WUStatus.failed) = false) :
    cfCount (l.set i a) + 1 = cfCount l :=
  countP_set_pred _ l i a u hu hpu hpa

theorem npCount_set_eq {l : List UnitState} {i : Nat} {u : UnitState} (a : UnitState)
    (hu : l[i]? = some u) (hp : decide (u.isPost = false) = decide (a.isPost = false)) :
    npCount (l.set i a) = npCount l :=
  countP_set_eq _ l i a u hu hp

theorem inv_step_submit {s s' : SysState} {i : Nat} (hInv : Inv s)
    (h : applyOp (Op.submit i) s = some s') : Inv s' := by
  obtain ⟨h1, h2, h3, _⟩ := hInv
  cases hu : s.units[i]? with
  | none => simp only [applyOp, hu] at h; cases h
  | some u =>
    simp only [applyOp, hu] at h
    split at h
    case isFalse => cases h
    case isTrue hcond =>
      obtain ⟨hjs, hst⟩ := hcond
      injection h with h
      subst h
      refine ⟨?_, ?_, ?_, ?_⟩
      · dsimp only
        rw [ccCount_set_eq { u with status := WUStatus.assigned } hu (by simp [hst])]
        exact h1
      · dsimp only
        rw [cfCount_set_eq { u with status := WUStatus.assigned } hu (by simp [hst])]
        exact h2
      · dsimp only
        rw [npCount_set_eq { u with status := WUStatus.assigned } hu rfl]
        exact h3
      · intro hCT
        rcases hjs with hjs | hjs <;> rcases hCT with hCT | hCT <;>
          (dsimp only at hCT; rw [hjs] at hCT; cases hCT)

theorem inv_step_startUnit {s s' : SysState} {i : Nat} (hInv : Inv s)
    (h : applyOp (Op.startUnit i) s = some s') : Inv s' := by
  obtain ⟨h1, h2, h3, h4⟩ := hInv
  cases hu : s.units[i]? with
  | none => simp only [applyOp, hu] at h; cases h
  | some u =>
    simp only [applyOp, hu] at h
    split at h
    case isFalse => cases h
    case isTrue hst =>
      injection h with h
      subst h
      refine ⟨?_, ?_, ?_, ?_⟩
      · dsimp only
        rw [ccCount_set_eq { u with status := WUStatus.processing } hu (by simp [hst])]
        exact h1
      · dsimp only
        rw [cfCount_set_eq { u with status := WUStatus.processing } hu (by simp [hst])]
        exact h2
      · dsimp only
        rw [npCount_set_eq { u with status := WUStatus.processing } hu rfl]
        exact h3
      · intro hCT
        exact absurd hst ((h4 hCT).2 u (List.getElem?_mem hu)).2.1

theorem inv_step_completeUnit {s s' : SysState} {i : Nat} (hInv : Inv s)
    (h : applyOp (Op.completeUnit i) s = some s') : Inv s' := by
  obtain ⟨h1, h2, h3, h4⟩ := hInv
  cases hu : s.units[i]? with
  | none => simp only [applyOp, hu] at h; cases h
  | some u =>
    simp only [applyOp, hu] at h
    split at h
    case isFalse => cases h
    case isTrue hst =>
      injection h with h
      subst h
      refine ⟨?_, ?_, ?_, ?_⟩
      · dsimp only
        rcases Bool.dichotomy u.isPost with hpost | hpost
        · rw [ccCount_set_succ { u with status := WUStatus.completed } hu
            (by simp [hst]) (by simp [hpost])]
          simpa [hpost] using Nat.succ_le_succ h1
        · rw [ccCount_set_eq { u with status := WUStatus.completed } hu
            (by simp [hst, hpost])]
          simpa [hpost] using h1
      · dsimp only
        rw [cfCount_set_eq { u with status := WUStatus.completed } hu (by simp [hst])]
        exact h2
      · dsimp only
        rw [npCount_set_eq { u with status := WUStatus.completed } hu rfl]
        exact h3
      · intro hCT
        exact absurd hst ((h4 hCT).2 u (List.getElem?_mem hu)).2.2

theorem inv_step_failUnit {s s' : SysState} {i : Nat} (hInv : Inv s)
    (h : applyOp (Op.failUnit i) s = some s') : Inv s' := by
  obtain ⟨h1, h2, h3, h4⟩ := hInv
  cases hu : s.units[i]? with
  | none => simp only [applyOp, hu] at h; cases h
  | some u =>
    simp only [applyOp, hu] at h
    split at h
    case isFalse => cases h
    case isTrue hst =>
      split at h
      case isTrue hretry =>
        injection h with h
        subst h
        refine ⟨?_, ?_, ?_, ?_⟩
        · dsimp only
          rw [ccCount_set_eq
            { u with status := WUStatus.pending, retry_count := u.retry_count + 1 } hu
            (by simp [hst])]
          exact h1
        · dsimp only
          rw [cfCount_set_eq
            { u with status := WUStatus.pending, retry_count := u.retry_count + 1 } hu
            (by simp [hst])]
          exact h2
        · dsimp only
          rw [npCount_set_eq
            { u with status := WUStatus.pending, retry_count := u.retry_count + 1 } hu rfl]
          exact h3
        · intro hCT
          exact absurd hst ((h4 hCT).2 u (List.getElem?_mem hu)).2.2
      case isFalse hretry =>
        injection h with h
        subst h
        refine ⟨?_, ?_, ?_, ?_⟩
        · dsimp only
          rw [ccCount_set_eq { u with status := WUStatus.failed } hu (by simp [hst])]
          exact h1
        · dsimp only
          rcases Bool.dichotomy u.isPost with hpost | hpost
          · rw [cfCount_set_succ { u with status := WUStatus.failed } hu
              (by simp [hst]) (by simp [hpost])]
            simpa [hpost] using Nat.succ_le_succ h2
          · rw [cfCount_set_eq { u with status := WUStatus.failed } hu
              (by simp [hst, hpost])]
            simpa [hpost] using h2
        · dsimp only
          rw [npCount_set_eq { u with status := WUStatus.failed } hu rfl]
          exact h3
        · intro hCT
          exact absurd hst ((h4 hCT).2 u (List.getElem?_mem hu)).2.2

theorem inv_step_restartUnit {s s' : SysState} {i : Nat} (hInv : Inv s)
    (h : applyOp (Op.restartUnit i) s = some s') : Inv s' := by
  obtain ⟨h1, h2, h3, h4⟩ := hInv
  cases hu : s.units[i]? with
  | none => simp only [applyOp, hu] at h; cases h
  | some u =>
    simp only [applyOp, hu] at h
    split at h
    case isFalse => cases h
    case isTrue hst =>
      injection h with h
      subst h
      refine ⟨?_, ?_, ?_, ?_⟩
      · dsimp only
        rw [ccCount_set_eq { u with status := WUStatus.pending } hu (by simp [hst])]
        exact h1
      · dsimp only
        rcases Bool.dichotomy u.isPost with hpost | hpost
        · have hp := cfCount_set_pred { u with status := WUStatus.pending } hu
            (by simp [hst, hpost]) (by simp)
          omega
        · rw [cfCount_set_eq { u with status := WUStatus.pending } hu
            (by simp [hst, hpost])]
          omega
      · dsimp only
        rw [npCount_set_eq { u with status := WUStatus.pending } hu rfl]
        exact h3
      · intro hCT
        obtain ⟨hc1, hall⟩ := h4 hCT
        refine ⟨hc1, fun v hv => ?_⟩
        rcases List.mem_or_eq_of_mem_set hv with hv | hv
        · exact hall v hv
        · subst hv
          exact ⟨(hall u (List.getElem?_mem hu)).1, by simp, by simp⟩

theorem inv_step_killUnit {s s' : SysState} {i : Nat} (hInv : Inv s)
    (h : applyOp (Op.killUnit i) s = some s') : Inv s' := by
  obtain ⟨h1, h2, h3, h4⟩ := hInv
  cases hu : s.units[i]? with
  | none => simp only [applyOp, hu] at h; cases h
  | some u =>
    simp only [applyOp, hu] at h
    split at h
    case isFalse => cases h
    case isTrue hst =>
      injection h with h
      subst h
      refine ⟨?_, ?_, ?_, ?_⟩
      · dsimp only
        rw [ccCount_set_eq { u with status := WUStatus.failed } hu
          (by rcases hst with hst | hst <;> simp [hst])]
        exact h1
      · dsimp only
        rcases hst with hst | hst
        · rcases Bool.dichotomy u.isPost with hpost | hpost
          · rw [cfCount_set_succ { u with status := WUStatus.failed } hu
              (by simp [hst]) (by simp [hpost])]
            omega
          · rw [cfCount_set_eq { u with status := WUStatus.failed } hu
              (by simp [hst, hpost])]
            exact h2
        · rw [cfCount_set_eq { u with status := WUStatus.failed } hu (by simp [hst])]
          exact h2
      · dsimp only
        rw [npCount_set_eq { u with status := WUStatus.failed } hu rfl]
        exact h3
      · intro hCT
        obtain ⟨hc1, hall⟩ := h4 hCT
        refine ⟨hc1, fun v hv => ?_⟩
        rcases List.mem_or_eq_of_mem_set hv with hv | hv
        · exact hall v hv
        · subst hv
          exact ⟨(hall u (List.getElem?_mem hu)).1, by simp, by simp⟩

theorem inv_step_runTest {s s' : SysState} {i : Nat} {success : Bool} (hInv : Inv s)
    (h : applyOp (Op.runTest i success) s = some s') : Inv s' := by
  obtain ⟨h1, h2, h3, h4⟩ := hInv
  cases hu : s.units[i]? with
  | none => simp only [applyOp, hu] at h; cases h
  | some u =>
    simp only [applyOp, hu] at h
    split at h
    case isFalse => cases h
    case isTrue hcond =>
      obtain ⟨hjs, hst⟩ := hcond
      obtain ⟨hc1, hall⟩ := h4 (Or.inl hjs)
      have hup : u.isPost = false := (hall u (List.getElem?_mem hu)).1
      injection h with h
      subst h
      cases success with
      | true =>
        try simp only [reduceIte]
        refine ⟨?_, ?_, ?_, ?_⟩
        · dsimp only
          rw [ccCount_set_succ { u with status := WUStatus.completed } hu
            (by simp [hst]) (by simp [hup])]
          exact Nat.le_add_left 1 _
        · dsimp only
          rw [cfCount_set_eq { u with status := WUStatus.completed } hu (by simp [hst])]
          exact h2
        · dsimp only
          rw [npCount_set_eq { u with status := WUStatus.completed } hu rfl]
          exact h3
        · intro _
          refine ⟨Nat.le_refl 1, fun v hv => ?_⟩
          rcases List.mem_or_eq_of_mem_set hv with hv | hv
          · exact hall v hv
          · subst hv
            exact ⟨hup, by simp, by simp⟩
      | false =>
        rw [show (if false = true then WUStatus.completed else WUStatus.failed) =
          WUStatus.failed from rfl,
          show (if false = true then 1 else s.completed) = s.completed from rfl]
        refine ⟨?_, ?_, ?_, ?_⟩
        · dsimp only
          rw [ccCount_set_eq { u with status := WUStatus.failed } hu (by simp [hst])]
          exact h1
        · dsimp only
          rw [cfCount_set_succ { u with status := WUStatus.failed } hu
            (by simp [hst]) (by simp [hup])]
          omega
        · dsimp only
          rw [npCount_set_eq { u with status := WUStatus.failed } hu rfl]
          exact h3
        · intro _
          refine ⟨hc1, fun v hv => ?_⟩
          rcases List.mem_or_eq_of_mem_set hv with hv | hv
          · exact hall v hv
          · subst hv
            exact ⟨hup, by simp, by simp⟩

theorem determineFinalStatus_cases (j : Job) (p : Option WorkUnit) :
    determineFinalStatus j p = JStatus.completed ∨
    determineFinalStatus j p = JStatus.failed ∨
    determineFinalStatus j p = JStatus.paused := by
  simp only [determineFinalStatus]
  split_ifs <;> simp

theorem finalStatusSys_cases (s : SysState) :
    finalStatusSys s = JStatus.completed ∨ finalStatusSys s = JStatus.failed ∨
    finalStatusSys s = JStatus.paused :=
  determineFinalStatus_cases _ _

theorem inv_step_rejectTest {s s' : SysState} (hInv : Inv s)
    (h : applyOp Op.rejectTest s = some s') : Inv s' := by
  obtain ⟨h1, h2, h3, h4⟩ := hInv
  simp only [applyOp] at h
  split at h
  case isFalse => cases h
  case isTrue hjs =>
    injection h with h
    subst h
    exact ⟨h1, h2, h3, fun _ => h4 (Or.inr hjs)⟩

theorem inv_step_startExecutor {s s' : SysState} (hInv : Inv s)
    (h : applyOp Op.startExecutor s = some s') : Inv s' := by
  obtain ⟨h1, h2, h3, _⟩ := hInv
  simp only [applyOp] at h
  injection h with h
  subst h
  refine ⟨?_, ?_, ?_, ?_⟩
  · dsimp only
    rw [ccCount_resetStuck]
    exact h1
  · dsimp only
    rw [cfCount_resetStuck]
    exact h2
  · dsimp only
    rw [npCount_resetStuck]
    exact h3
  · intro hCT
    rcases hCT with hCT | hCT <;> simp at hCT

theorem inv_step_createPostUnit {s s' : SysState} {mr : Nat} (hInv : Inv s)
    (h : applyOp (Op.createPostUnit mr) s = some s') : Inv s' := by
  obtain ⟨h1, h2, h3, _⟩ := hInv
  simp only [applyOp] at h
  split at h
  case isFalse => cases h
  case isTrue hjs =>
    injection h with h
    subst h
    refine ⟨?_, ?_, ?_, ?_⟩
    · dsimp only
      have hA : ccCount (s.units ++ [⟨WUStatus.pending, 0, mr, true⟩]) =
          ccCount s.units := by
        simp [ccCount, List.countP_append]
      rw [hA]
      exact h1
    · dsimp only
      have hA : cfCount (s.units ++ [⟨WUStatus.pending, 0, mr, true⟩]) =
          cfCount s.units := by
        simp [cfCount, List.countP_append]
      rw [hA]
      exact h2
    · dsimp only
      have hA : npCount (s.units ++ [⟨WUStatus.pending, 0, mr, true⟩]) =
          npCount s.units := by
        simp [npCount, List.countP_append]
      rw [hA]
      exact h3
    · intro hCT
      rcases hCT with hCT | hCT <;> simp at hCT

theorem inv_step_finalize {s s' : SysState} (hInv : Inv s)
    (h : applyOp Op.finalize s = some s') : Inv s' := by
  obtain ⟨h1, h2, h3, _⟩ := hInv
  simp only [applyOp] at h
  split at h
  case isFalse => cases h
  case isTrue hjs =>
    injection h with h
    subst h
    refine ⟨h1, h2, h3, ?_⟩
    intro hCT
    rcases finalStatusSys_cases s with hd | hd | hd <;>
      rcases hCT with hCT | hCT <;> dsimp only at hCT <;> rw [hd] at hCT <;> cases hCT

theorem inv_step_killExecutorAlive {s s' : SysState} (hInv : Inv s)
    (h : applyOp Op.killExecutorAlive s = some s') : Inv s' := by
  obtain ⟨h1, h2, h3, _⟩ := hInv
  simp only [applyOp] at h
  injection h with h
  subst h
  refine ⟨?_, ?_, ?_, ?_⟩
  · dsimp only
    rw [ccCount_resetStuck]
    exact h1
  · dsimp only
    rw [cfCount_resetStuck]
    exact h2
  · dsimp only
    rw [npCount_resetStuck]
    exact h3
  · intro hCT
    rcases hCT with hCT | hCT <;> simp at hCT

theorem inv_step_killExecutorDead {s s' : SysState} (hInv : Inv s)
    (h : applyOp Op.killExecutorDead s = some s') : Inv s' := by
  obtain ⟨h1, h2, h3, _⟩ := hInv
  simp only [applyOp] at h
  injection h with h
  subst h
  refine ⟨h1, h2, h3, ?_⟩
  intro hCT
  rcases hCT with hCT | hCT <;> simp at hCT

theorem inv_step_crash {s s' : SysState} (hInv : Inv s)
    (h : applyOp Op.crash s = some s') : Inv s' := by
  obtain ⟨h1, h2, h3, _⟩ := hInv
  simp only [applyOp] at h
  injection h with h
  subst h
  refine ⟨h1, h2, h3, ?_⟩
  intro hCT
  rcases hCT with hCT | hCT <;> simp at hCT

theorem inv_step {s s' : SysState} (o : Op) (hInv : Inv s)
    (h : applyOp o s = some s') : Inv s' := by
  cases o with
  | submit i => exact inv_step_submit hInv h
  | startUnit i => exact inv_step_startUnit hInv h
  | completeUnit i => exact inv_step_completeUnit hInv h
  | failUnit i => exact inv_step_failUnit hInv h
  | restartUnit i => exact inv_step_restartUnit hInv h
  | killUnit i => exact inv_step_killUnit hInv h
  | runTest i success => exact inv_step_runTest hInv h
  | rejectTest => exact inv_step_rejectTest hInv h
  | startExecutor => exact inv_step_startExecutor hInv h
  | createPostUnit mr => exact inv_step_createPostUnit hInv h
  | finalize => exact inv_step_finalize hInv h
  | killExecutorAlive => exact inv_step_killExecutorAlive hInv h
  | killExecutorDead => exact inv_step_killExecutorDead hInv h
  | crash => exact inv_step_crash hInv h

theorem inv_init (n mr : Nat) (b : Bool) (p : Option String) :
    Inv (initState n mr b p) := by
  refine ⟨?_, ?_, ?_, ?_⟩
  · simp [initState, ccCount, List.countP_replicate]
  · simp [initState, cfCount, List.countP_replicate]
  · simp [initState, npCount, List.countP_replicate]
  · intro _
    refine ⟨by simp [initState], fun u hu => ?_⟩
    rw [List.eq_of_mem_replicate hu]
    exact ⟨rfl, by simp, by simp⟩

theorem reachable_inv {s : SysState} (h : Reachable s) : Inv s := by
  induction h with
  | init n mr b p => exact inv_init n mr b p
  | step o hr happ ih => exact inv_step o ih happ

theorem step_counters {s s' : SysState} (o : Op) (hInv : Inv s)
    (h : applyOp o s = some s') :
    s.completed ≤ s'.completed ∧ s'.total = s.total ∧
    (s'.failed = s.failed ∨ s'.failed = s.failed + 1 ∨
      ((∃ i, o = Op.restartUnit i) ∧ s'.failed = s.failed - 1)) := by
  cases o with
  | submit i =>
    cases hu : s.units[i]? with
    | none => simp only [applyOp, hu] at h; cases h
    | some u =>
      simp only [applyOp, hu] at h
      split at h
      case isFalse => cases h
      case isTrue _ =>
        injection h with h
        subst h
        exact ⟨Nat.le_refl _, rfl, Or.inl rfl⟩
  | startUnit i =>
    cases hu : s.units[i]? with
    | none => simp only [applyOp, hu] at h; cases h
    | some u =>
      simp only [applyOp, hu] at h
      split at h
      case isFalse => cases h
      case isTrue _ =>
        injection h with h
        subst h
        exact ⟨Nat.le_refl _, rfl, Or.inl rfl⟩
  | completeUnit i =>
    cases hu : s.units[i]? with
    | none => simp only [applyOp, hu] at h; cases h
    | some u =>
      simp only [applyOp, hu] at h
      split at h
      case isFalse => cases h
      case isTrue _ =>
        injection h with h
        subst h
        refine ⟨?_, rfl, Or.inl rfl⟩
        dsimp only
        split
        · exact Nat.le_refl _
        · exact Nat.le_succ _
  | failUnit i =>
    cases hu : s.units[i]? with
    | none => simp only [applyOp, hu] at h; cases h
    | some u =>
      simp only [applyOp, hu] at h
      split at h
      case isFalse => cases h
      case isTrue _ =>
        split at h
        case isTrue _ =>
          injection h with h
          subst h
          exact ⟨Nat.le_refl _, rfl, Or.inl rfl⟩
        case isFalse _ =>
          injection h with h
          subst h
          refine ⟨Nat.le_refl _, rfl, ?_⟩
          dsimp only
          split
          · exact Or.inl rfl
          · exact Or.inr (Or.inl rfl)
  | restartUnit i =>
    cases hu : s.units[i]? with
    | none => simp only [applyOp, hu] at h; cases h
    | some u =>
      simp only [applyOp, hu] at h
      split at h
      case isFalse => cases h
      case isTrue _ =>
        injection h with h
        subst h
        exact ⟨Nat.le_refl _, rfl, Or.inr (Or.inr ⟨⟨i, rfl⟩, rfl⟩)⟩
  | killUnit i =>
    cases hu : s.units[i]? with
    | none => simp only [applyOp, hu] at h; cases h
    | some u =>
      simp only [applyOp, hu] at h
      split at h
      case isFalse => cases h
      case isTrue _ =>
        injection h with h
        subst h
        exact ⟨Nat.le_refl _, rfl, Or.inl rfl⟩
  | runTest i success =>
    cases hu : s.units[i]? with
    | none => simp only [applyOp, hu] at h; cases h
    | some u =>
      simp only [applyOp, hu] at h
      split at h
      case isFalse => cases h
      case isTrue hcond =>
        have hc1 := (hInv.2.2.2 (Or.inl hcond.1)).1
        injection h with h
        subst h
        refine ⟨?_, rfl, Or.inl rfl⟩
        dsimp only
        split
        · exact hc1
        · exact Nat.le_refl _
  | rejectTest =>
    simp only [applyOp] at h
    split at h
    case isFalse => cases h
    case isTrue _ =>
      injection h with h
      subst h
      exact ⟨Nat.le_refl _, rfl, Or.inl rfl⟩
  | startExecutor =>
    simp only [applyOp] at h
    injection h with h
    subst h
    exact ⟨Nat.le_refl _, rfl, Or.inl rfl⟩
  | createPostUnit mr =>
    simp only [applyOp] at h
    split at h
    case isFalse => cases h
    case isTrue _ =>
      injection h with h
      subst h
      exact ⟨Nat.le_refl _, rfl, Or.inl rfl⟩
  | finalize =>
    simp only [applyOp] at h
    split at h
    case isFalse => cases h
    case isTrue _ =>
      injection h with h
      subst h
      exact ⟨Nat.le_refl _, rfl, Or.inl rfl⟩
  | killExecutorAlive =>
    simp only [applyOp] at h
    injection h with h
    subst h
    exact ⟨Nat.le_refl _, rfl, Or.inl rfl⟩
  | killExecutorDead =>
    simp only [applyOp] at h
    injection h with h
    subst h
    exact ⟨Nat.le_refl _, rfl, Or.inl rfl⟩
  | crash =>
    simp only [applyOp] at h
    injection h with h
    subst h
    exact ⟨Nat.le_refl _, rfl, Or.inl rfl⟩

section ClaimC2

/-- Claim C2: in every state reachable from a freshly created job, the
invariant completed_units + failed_units ≤ total_units holds; moreover after
every further operation it still holds, completed_units never decreases, and
failed_units decreases only through an explicit restart-work-unit, which
sets it to failed_units - 1 (natural subtraction, i.e. floored at zero). -/
theorem C2_counter_invariant (s : SysState) (hs : Reachable s) :
    s.completed + s.failed ≤ s.total ∧
    ∀ o s', applyOp o s = some s' →
      s'.completed + s'.failed ≤ s'.total ∧
      s.completed ≤ s'.completed ∧
      (s'.failed < s.failed →
        (∃ i, o = Op.restartUnit i) ∧ s'.failed = s.failed - 1) := by
  have hInv := reachable_inv hs
  have hbound : ∀ t : SysState, Inv t → t.completed + t.failed ≤ t.total := by
    intro t ht
    obtain ⟨g1, g2, g3, _⟩ := ht
    have := cc_add_cf_le_np t.units
    omega
  refine ⟨hbound s hInv, ?_⟩
  intro o s' h
  have hInv' := inv_step o hInv h
  obtain ⟨hm1, hm2, hm3⟩ := step_counters o hInv h
  refine ⟨hbound s' hInv', hm1, ?_⟩
  intro hlt
  rcases hm3 with hf | hf | hf
  · omega
  · omega
  · exact hf

/-- Witness for C2_counter_invariant: the freshly created two-unit job. -/
theorem C2_counter_invariant_witness :
    (initState 2 3 false none).completed + (initState 2 3 false none).failed ≤
      (initState 2 3 false none).total ∧
    ∀ o s', applyOp o (initState 2 3 false none) = some s' →
      s'.completed + s'.failed ≤ s'.total ∧
      (initState 2 3 false none).completed ≤ s'.completed ∧
      (s'.failed < (initState 2 3 false none).failed →
        (∃ i, o = Op.restartUnit i) ∧
          s'.failed = (initState 2 3 false none).failed - 1) :=
  C2_counter_invariant (initState 2 3 false none) (Reachable.init 2 3 false none)

end ClaimC2

end ABP
